import Mathlib

/-!
Shallow embedding of the MBTA slot-filling dialog manager (`mbta/mbta.py`).

The session (`flask_ask`'s `session.attributes`) is modelled as an ordered
association list from slot names to values, with Python-dict semantics:
assignment overwrites the value in place for an existing key and appends a
new entry for a fresh key, and membership (`k in session.attributes`) is key
presence.  Handlers (`get_next_train`, `send_text`) are zero-argument Python
functions reading the global session; here they take the session explicitly
and return `Except PyErr (Option String)`: `Except.error` models an uncaught
Python exception (a `KeyError` from reading an absent key), and the
`Option String` payload models Python's `str`-or-`None` return values
(`send_text` falls off its body and returns `None`).
-/

namespace Mbta

/-- A Python-style uncaught exception relevant to this program. -/
inductive PyErr
  | keyError (key : String)
  | typeError
deriving DecidableEq, Repr

/-- The per-conversation session store: `session.attributes` as an ordered
association list from slot name to value. -/
abbrev Session := List (String × String)

/-- Dict lookup `session.attributes[k]` (first matching key; a real dict has
unique keys). -/
def Session.get : Session → String → Option String
  | [], _ => none
  | p :: rest, k => if p.1 = k then some p.2 else Session.get rest k

/-- Key membership `k in session.attributes`. -/
def hasSlot (sess : Session) (k : String) : Bool :=
  (Session.get sess k).isSome

/-- Dict assignment `session.attributes[k] = v`: overwrite in place when the
key is present, append otherwise. -/
def Session.set (sess : Session) (k v : String) : Session :=
  if sess.any (fun p => decide (p.1 = k)) then
    sess.map (fun p => if p.1 = k then (k, v) else p)
  else
    sess ++ [(k, v)]

/-- `get_next_train`: reads `Direction`, `Line`, `Station` from the session
(raising `KeyError` on an absent key, modelled as `Except.error`) and formats
the hardcoded 5-minute answer. -/
def get_next_train (sess : Session) : Except PyErr (Option String) :=
  match Session.get sess "Direction" with
  | none => Except.error (PyErr.keyError "Direction")
  | some direction =>
    match Session.get sess "Line" with
    | none => Except.error (PyErr.keyError "Line")
    | some line =>
      match Session.get sess "Station" with
      | none => Except.error (PyErr.keyError "Station")
      | some station =>
        Except.ok (some ("The next " ++ direction ++ " " ++ line ++
          " train from " ++ station ++ " leaves in 5 minutes."))

/-- `send_text`: body is `pass`, so the call returns Python `None`. -/
def send_text (_sess : Session) : Except PyErr (Option String) :=
  Except.ok none

/-- One entry of a step's slot list: `{"slot_name": ..., "prompt": ...}`. -/
structure Slot where
  slot_name : String
  prompt : String
deriving DecidableEq, Repr

/-- One entry of the `dialog` list: `{"intent": ..., "slots": ...,
"transition_msg": ...}`.  `slots` is `Option` because the source stores
Python `None` (not a list) in the second step; `transition_msg` is `Option`
for the same reason. -/
structure Step where
  intent : Session → Except PyErr (Option String)
  slots : Option (List Slot)
  transition_msg : Option String

/-- The `schedule_slots` list of `mbta.py`. -/
def schedule_slots : List Slot :=
  [{ slot_name := "Station", prompt := "What station?" },
   { slot_name := "Line", prompt := "What line?" },
   { slot_name := "Direction", prompt := "Inbound or outbound?" }]

/-- The `dialog` list of `mbta.py`: first step is the schedule lookup with a
transition message, second step is `send_text` with `slots = None` and no
transition message. -/
def dialog : List Step :=
  [{ intent := get_next_train, slots := some schedule_slots,
     transition_msg := some "Should I text you?" },
   { intent := send_text, slots := none, transition_msg := none }]

/-- The two flask_ask response kinds the engine can request. -/
inductive RespType
  | question
  | statement
deriving DecidableEq, Repr

/-- The outcome of a `set_context_and_handle` call: a `(msg_type, msg)` pair
(where `msg` is a Python `str` or `None`), an uncaught exception, or the
implicit `None` returned when the `for` loop finishes without returning
(impossible for a non-empty dialog). -/
inductive AdvanceResult
  | response (mode : RespType) (msg : Option String)
  | exn (e : PyErr)
  | noReturn
deriving DecidableEq, Repr

/-- The body of the `for seq in dialog` loop in `set_context_and_handle`.
`some r` models an early `return` (or an exception propagating out);
`none` would model falling through to the next iteration.  Iterating
`seq["slots"]` when it is `None` raises `TypeError`; `final_msg + "..." +
tm` when `final_msg` is `None` would also raise `TypeError`. -/
def loopBody (seq : Step) (sess : Session) : Option AdvanceResult :=
  match seq.slots with
  | none => some (AdvanceResult.exn PyErr.typeError)
  | some intent_slots =>
    match intent_slots.find? (fun s => !(hasSlot sess s.slot_name)) with
    | some s => some (AdvanceResult.response RespType.question (some s.prompt))
    | none =>
      match seq.intent sess with
      | Except.error e => some (AdvanceResult.exn e)
      | Except.ok final_msg =>
        match seq.transition_msg with
        | some tm =>
          if tm = "" then
            some (AdvanceResult.response RespType.statement final_msg)
          else
            match final_msg with
            | some fm =>
              some (AdvanceResult.response RespType.question
                (some (fm ++ "..." ++ tm)))
            | none => some (AdvanceResult.exn PyErr.typeError)
        | none => some (AdvanceResult.response RespType.statement final_msg)

/-- The `for seq in dialog` loop of `set_context_and_handle`: run the body on
each step in order, returning at the first early return; falling off the end
of the function returns Python `None` (`noReturn`). -/
def advanceLoop : List Step → Session → AdvanceResult
  | [], _ => AdvanceResult.noReturn
  | seq :: rest, sess =>
    match loopBody seq sess with
    | some r => r
    | none => advanceLoop rest sess

/-- The slot-write phase of `set_context_and_handle`: `if slot and value:
session.attributes[slot] = value`.  Python truthiness on strings: `None` and
`""` are falsy. -/
def writeSlot (slot value : Option String) (sess : Session) : Session :=
  match slot, value with
  | some sl, some v => if sl = "" ∨ v = "" then sess else Session.set sess sl v
  | _, _ => sess

/-- `set_context_and_handle(slot, value)`: write the incoming slot (when both
name and value are truthy), then scan the dialog.  Returns the updated
session together with the call's result. -/
def set_context_and_handle (slot value : Option String) (sess : Session) :
    Session × AdvanceResult :=
  let sess' := writeSlot slot value sess
  (sess', advanceLoop dialog sess')

/-- The session left after a sequence of `set_context_and_handle` calls, each
given as an incoming `(slot, value)` pair. -/
def runCalls (calls : List (Option String × Option String)) (sess : Session) :
    Session :=
  calls.foldl (fun s c => (set_context_and_handle c.1 c.2 s).1) sess

/-! Helper lemmas about the session store. -/

theorem bool_eq_false {b : Bool} (h : ¬ b = true) : b = false := by
  cases b
  · rfl
  · exact absurd rfl h

theorem get_map_overwrite_ne (sess : Session) (k v j : String) (h : j ≠ k) :
    Session.get (sess.map (fun p => if p.1 = k then (k, v) else p)) j =
      Session.get sess j := by
  induction sess with
  | nil => rfl
  | cons p t ih =>
    by_cases hp : p.1 = k
    · simp [Session.get, hp, Ne.symm h, ih]
    · simp only [List.map_cons, if_neg hp]
      simp [Session.get, ih]

theorem get_append_overwrite_ne (sess : Session) (k v j : String) (h : j ≠ k) :
    Session.get (sess ++ [(k, v)]) j = Session.get sess j := by
  induction sess with
  | nil => simp [Session.get, Ne.symm h]
  | cons p t ih =>
    by_cases hp : p.1 = j
    · simp [Session.get, hp]
    · simp [Session.get, hp, ih]

theorem get_set_ne (sess : Session) (k v j : String) (h : j ≠ k) :
    Session.get (Session.set sess k v) j = Session.get sess j := by
  unfold Session.set
  by_cases hany : sess.any (fun p => decide (p.1 = k)) = true
  · simp only [hany, if_true]
    exact get_map_overwrite_ne sess k v j h
  · simp only [hany, if_false]
    exact get_append_overwrite_ne sess k v j h

theorem get_map_overwrite_self (sess : Session) (k v : String)
    (h : sess.any (fun p => decide (p.1 = k)) = true) :
    Session.get (sess.map (fun p => if p.1 = k then (k, v) else p)) k =
      some v := by
  induction sess with
  | nil => simp at h
  | cons p t ih =>
    by_cases hp : p.1 = k
    · simp [Session.get, hp]
    · simp only [List.any_cons, hp, decide_False, Bool.false_or] at h
      simp only [List.map_cons, if_neg hp]
      simp [Session.get, hp, ih h]

theorem get_append_overwrite_self (sess : Session) (k v : String)
    (h : sess.any (fun p => decide (p.1 = k)) = false) :
    Session.get (sess ++ [(k, v)]) k = some v := by
  induction sess with
  | nil => simp [Session.get]
  | cons p t ih =>
    simp only [List.any_cons, Bool.or_eq_false_iff, decide_eq_false_iff_not] at h
    simp [Session.get, h.1, ih (by simpa using h.2)]

theorem get_set_self (sess : Session) (k v : String) :
    Session.get (Session.set sess k v) k = some v := by
  unfold Session.set
  by_cases hany : sess.any (fun p => decide (p.1 = k)) = true
  · simp only [hany, if_true]
    exact get_map_overwrite_self sess k v hany
  · simp only [hany, if_false]
    exact get_append_overwrite_self sess k v (bool_eq_false hany)

theorem hasSlot_set (sess : Session) (k v j : String) (h : hasSlot sess j = true) :
    hasSlot (Session.set sess k v) j = true := by
  by_cases hjk : j = k
  · subst hjk
    simp [hasSlot, get_set_self]
  · simpa [hasSlot, get_set_ne sess k v j hjk] using h

theorem map_overwrite_idem (sess : Session) (k v : String) :
    (sess.map (fun p => if p.1 = k then (k, v) else p)).map
        (fun p => if p.1 = k then (k, v) else p) =
      sess.map (fun p => if p.1 = k then (k, v) else p) := by
  induction sess with
  | nil => rfl
  | cons p t ih =>
    by_cases hp : p.1 = k
    · simp only [List.map_cons, if_pos hp, ih]
      simp
    · simp only [List.map_cons, if_neg hp, if_neg hp, ih]

theorem any_map_overwrite (sess : Session) (k v : String)
    (h : sess.any (fun p => decide (p.1 = k)) = true) :
    (sess.map (fun p => if p.1 = k then (k, v) else p)).any
        (fun p => decide (p.1 = k)) = true := by
  induction sess with
  | nil => simp at h
  | cons p t ih =>
    by_cases hp : p.1 = k
    · simp [hp]
    · simp only [List.any_cons, hp, decide_False, Bool.false_or] at h
      simp [hp, ih h]

theorem map_overwrite_of_any_false (sess : Session) (k v : String)
    (h : sess.any (fun p => decide (p.1 = k)) = false) :
    sess.map (fun p => if p.1 = k then (k, v) else p) = sess := by
  induction sess with
  | nil => rfl
  | cons p t ih =>
    simp only [List.any_cons, Bool.or_eq_false_iff, decide_eq_false_iff_not] at h
    simp [h.1, ih (by simpa using h.2)]

theorem set_idem (sess : Session) (k v : String) :
    Session.set (Session.set sess k v) k v = Session.set sess k v := by
  unfold Session.set
  by_cases hany : sess.any (fun p => decide (p.1 = k)) = true
  · simp only [hany, if_true, any_map_overwrite sess k v hany, if_true]
    exact map_overwrite_idem sess k v
  · simp only [hany, if_false]
    have happ : (sess ++ [(k, v)]).any (fun p => decide (p.1 = k)) = true := by
      simp
    simp only [happ, if_true, List.map_append,
      map_overwrite_of_any_false sess k v (bool_eq_false hany)]
    simp
    exact map_overwrite_of_any_false sess k v (bool_eq_false hany)

theorem loopBody_isSome (seq : Step) (sess : Session) :
    (loopBody seq sess).isSome = true := by
  unfold loopBody
  repeat' split
  all_goals simp

theorem hasSlot_advance_step (slot value : Option String) (sess : Session)
    (k : String) (h : hasSlot sess k = true) :
    hasSlot (set_context_and_handle slot value sess).1 k = true := by
  show hasSlot (writeSlot slot value sess) k = true
  cases slot with
  | none => simpa [writeSlot] using h
  | some sl =>
    cases value with
    | none => simpa [writeSlot] using h
    | some v =>
      by_cases hc : sl = "" ∨ v = ""
      · simpa [writeSlot, hc] using h
      · simpa [writeSlot, hc] using hasSlot_set sess sl v k h

/-! Claim theorems. -/

/-- C2: every call to `set_context_and_handle` evaluates exactly one step of
the dialog: the outcome is fully determined by the first step (scanning a
dialog `seq :: rest` gives the same result as scanning `[seq]`), because the
loop body early-returns on every path — either a `Question` for a missing
slot of that step, or the step's handler outcome — and never reaches a
subsequent step. -/
theorem advance_evaluates_single_step (seq : Step) (rest : List Step)
    (sess : Session) :
    advanceLoop (seq :: rest) sess = advanceLoop [seq] sess ∧
    ∃ r, loopBody seq sess = some r ∧ advanceLoop (seq :: rest) sess = r := by
  obtain ⟨r, hr⟩ := Option.isSome_iff_exists.mp (loopBody_isSome seq sess)
  exact ⟨by simp [advanceLoop, hr], r, hr, by simp [advanceLoop, hr]⟩

/-- C5: whenever, after the write phase, some required slot of the first
step is missing from the session, `set_context_and_handle` returns a
question whose text is the prompt of the earliest-declared missing slot
(the first `find?` hit in `schedule_slots`) — one slot per call. -/
theorem advance_prompts_first_missing (slot value : Option String)
    (sess : Session) (s : Slot)
    (h : schedule_slots.find?
        (fun sl => !(hasSlot (set_context_and_handle slot value sess).1
          sl.slot_name)) = some s) :
    (set_context_and_handle slot value sess).2 =
      AdvanceResult.response RespType.question (some s.prompt) := by
  have h' : schedule_slots.find?
      (fun sl => !(hasSlot (writeSlot slot value sess) sl.slot_name)) = some s := h
  show advanceLoop dialog (writeSlot slot value sess) = _
  simp [dialog, advanceLoop, loopBody, h']

/-- C5 witness: with only `Station` set, the call asks for `Line` (the
second declared slot), not `Direction`. -/
theorem advance_prompts_first_missing_witness :
    (set_context_and_handle none none [("Station", "Park St")]).2 =
      AdvanceResult.response RespType.question (some "What line?") :=
  advance_prompts_first_missing none none [("Station", "Park St")]
    { slot_name := "Line", prompt := "What line?" } (by decide)

/-- C6: when every required slot of the evaluated (first) step is present
and its handler returns text, the call renders a non-empty transition
message as `Question(text ++ "..." ++ transition)` and the absence of a
transition message as `Statement(text)`. -/
theorem complete_step_renders_outcome (seq : Step) (rest : List Step)
    (sess : Session) (l : List Slot) (msg : String)
    (hslots : seq.slots = some l)
    (hfilled : l.find? (fun s => !(hasSlot sess s.slot_name)) = none)
    (hrun : seq.intent sess = Except.ok (some msg)) :
    (∀ tm, seq.transition_msg = some tm → tm ≠ "" →
      advanceLoop (seq :: rest) sess =
        AdvanceResult.response RespType.question (some (msg ++ "..." ++ tm))) ∧
    (seq.transition_msg = none →
      advanceLoop (seq :: rest) sess =
        AdvanceResult.response RespType.statement (some msg)) := by
  constructor
  · intro tm htm hne
    simp [advanceLoop, loopBody, hslots, hfilled, hrun, htm, hne]
  · intro htm
    simp [advanceLoop, loopBody, hslots, hfilled, hrun, htm]

/-- C6 witness: the schedule step with a full session renders
`Question(nextTrain() ++ "..." ++ "Should I text you?")`. -/
theorem complete_step_renders_outcome_witness :
    advanceLoop dialog
        [("Station", "Park St"), ("Line", "Red"), ("Direction", "Inbound")] =
      AdvanceResult.response RespType.question
        (some ("The next Inbound Red train from Park St leaves in 5 minutes."
          ++ "..." ++ "Should I text you?")) :=
  (complete_step_renders_outcome
      { intent := get_next_train, slots := some schedule_slots,
        transition_msg := some "Should I text you?" }
      [{ intent := send_text, slots := none, transition_msg := none }]
      [("Station", "Park St"), ("Line", "Red"), ("Direction", "Inbound")]
      schedule_slots
      "The next Inbound Red train from Park St leaves in 5 minutes."
      rfl (by decide) rfl).1
    "Should I text you?" rfl (by decide)

/-- C7: every call to `set_context_and_handle` produces a normal
`(msg_type, msg)` response, for every session state and every input.  In
this embedding a handler invoked with a missing required slot evaluates to
`AdvanceResult.exn (PyErr.keyError _)` and a scan of a `None` slot list to
`AdvanceResult.exn PyErr.typeError`, so this theorem shows the
MissingSlotDependency condition (and the `None`-slot-list scan) is
unreachable: the handler only ever runs after the scan has verified every
required slot is present. -/
theorem advance_always_responds (slot value : Option String) (sess : Session) :
    ∃ mode msg, (set_context_and_handle slot value sess).2 =
      AdvanceResult.response mode msg := by
  cases hf : schedule_slots.find?
      (fun s => !(hasSlot (writeSlot slot value sess) s.slot_name)) with
  | some s =>
    refine ⟨RespType.question, some s.prompt, ?_⟩
    show advanceLoop dialog (writeSlot slot value sess) = _
    simp [dialog, advanceLoop, loopBody, hf]
  | none =>
    have hall := List.find?_eq_none.mp hf
    have hdir : hasSlot (writeSlot slot value sess) "Direction" = true := by
      have := hall { slot_name := "Direction", prompt := "Inbound or outbound?" }
        (by simp [schedule_slots])
      simpa using this
    have hline : hasSlot (writeSlot slot value sess) "Line" = true := by
      have := hall { slot_name := "Line", prompt := "What line?" }
        (by simp [schedule_slots])
      simpa using this
    have hstation : hasSlot (writeSlot slot value sess) "Station" = true := by
      have := hall { slot_name := "Station", prompt := "What station?" }
        (by simp [schedule_slots])
      simpa using this
    simp only [hasSlot] at hdir hline hstation
    obtain ⟨d, hd⟩ := Option.isSome_iff_exists.mp hdir
    obtain ⟨li, hl⟩ := Option.isSome_iff_exists.mp hline
    obtain ⟨st, hs⟩ := Option.isSome_iff_exists.mp hstation
    have hrun : get_next_train (writeSlot slot value sess) =
        Except.ok (some ("The next " ++ d ++ " " ++ li ++ " train from "
          ++ st ++ " leaves in 5 minutes.")) := by
      simp [get_next_train, hd, hl, hs]
    refine ⟨RespType.question,
      some (("The next " ++ d ++ " " ++ li ++ " train from " ++ st
        ++ " leaves in 5 minutes.") ++ "..." ++ "Should I text you?"), ?_⟩
    show advanceLoop dialog (writeSlot slot value sess) = _
    have hne : ¬("Should I text you?" = "") := by decide
    simp [dialog, advanceLoop, loopBody, hf, hrun, hne]

/-- C8: slots are monotone: a slot name present in the session stays
present (with some value) across any further sequence of
`set_context_and_handle` calls. -/
theorem slots_monotonic (calls : List (Option String × Option String))
    (sess : Session) (k : String) (h : hasSlot sess k = true) :
    hasSlot (runCalls calls sess) k = true := by
  induction calls generalizing sess with
  | nil => simpa [runCalls] using h
  | cons c t ih =>
    exact ih ((set_context_and_handle c.1 c.2 sess).1)
      (hasSlot_advance_step c.1 c.2 sess k h)

/-- C8 witness: `Station`, once set, is still present after a further call
that sets `Line`. -/
theorem slots_monotonic_witness :
    hasSlot (runCalls [(some "Line", some "Red")] [("Station", "X")])
      "Station" = true :=
  slots_monotonic [(some "Line", some "Red")] [("Station", "X")] "Station"
    (by decide)

/-- C9: calling `set_context_and_handle` twice with the same `(slot, value)`
pair leaves the session in the same state as calling it once: the only
session mutation is the dict overwrite, which is idempotent for equal
values. -/
theorem advance_idempotent_session (slot value : Option String)
    (sess : Session) :
    (set_context_and_handle slot value
        (set_context_and_handle slot value sess).1).1 =
      (set_context_and_handle slot value sess).1 := by
  show writeSlot slot value (writeSlot slot value sess) =
    writeSlot slot value sess
  cases slot with
  | none => rfl
  | some sl =>
    cases value with
    | none => rfl
    | some v =>
      by_cases hc : sl = "" ∨ v = ""
      · simp [writeSlot, hc]
      · simp [writeSlot, hc, set_idem]

/-- C10: frame property: a `set_context_and_handle` call leaves every
session entry whose key differs from the incoming slot name unchanged —
the call writes at most the one incoming slot. -/
theorem advance_frame (slot value : Option String) (sess : Session)
    (k : String) (h : slot ≠ some k) :
    Session.get (set_context_and_handle slot value sess).1 k =
      Session.get sess k := by
  show Session.get (writeSlot slot value sess) k = Session.get sess k
  cases slot with
  | none => rfl
  | some sl =>
    cases value with
    | none => rfl
    | some v =>
      by_cases hc : sl = "" ∨ v = ""
      · simp [writeSlot, hc]
      · have hne : k ≠ sl := fun e => h (by rw [e])
        simp [writeSlot, hc, get_set_ne sess sl v k hne]

/-- C10 witness: setting `Line` leaves the `Station` entry unchanged. -/
theorem advance_frame_witness :
    Session.get
        (set_context_and_handle (some "Line") (some "Red")
          [("Station", "X")]).1 "Station" =
      Session.get [("Station", "X")] "Station" :=
  advance_frame (some "Line") (some "Red") [("Station", "X")] "Station"
    (by decide)

/-- C3 counterexample: an incoming slot with an empty value is NOT written:
`set_context_and_handle("Station", "")` on an empty session leaves
`Station` absent, because the source guards the write with
`if slot and value:` and the empty string is falsy. -/
theorem empty_value_not_written :
    hasSlot (set_context_and_handle (some "Station") (some "") []).1
      "Station" = false := by
  decide

/-- C3 (amended): when both the incoming slot name and its value are
non-empty, the pair is written into the session before the step scan,
unconditionally — in particular for slot names belonging to no step — and
the scan then runs on the updated session. -/
theorem write_unconditional_when_truthy (sess : Session) (k v : String)
    (hk : k ≠ "") (hv : v ≠ "") :
    (set_context_and_handle (some k) (some v) sess).1 = Session.set sess k v ∧
    (set_context_and_handle (some k) (some v) sess).2 =
      advanceLoop dialog (Session.set sess k v) := by
  have hc : ¬(k = "" ∨ v = "") := by
    intro hor
    cases hor with
    | inl h => exact hk h
    | inr h => exact hv h
  constructor
  · show writeSlot (some k) (some v) sess = _
    simp [writeSlot, hc]
  · show advanceLoop dialog (writeSlot (some k) (some v) sess) = _
    simp [writeSlot, hc]

/-- C3 witness: a slot name declared by no step (`Foo`) is still written. -/
theorem write_unconditional_witness :
    (set_context_and_handle (some "Foo") (some "bar") []).1 =
      Session.set [] "Foo" "bar" ∧
    (set_context_and_handle (some "Foo") (some "bar") []).2 =
      advanceLoop dialog (Session.set [] "Foo" "bar") :=
  write_unconditional_when_truthy [] "Foo" "bar" (by decide) (by decide)

/-- C4: the constructed dialog violates the non-null slot-list invariant:
the second step (`send_text`) stores Python `None` instead of a list, and
scanning that step would raise `TypeError` (iterating `None`). -/
theorem second_step_slots_null :
    dialog.map Step.slots = [some schedule_slots, none] ∧
    advanceLoop (dialog.drop 1) [] = AdvanceResult.exn PyErr.typeError := by
  exact ⟨rfl, rfl⟩

/-- C1 counterexample: with `Station`, `Line` and `Direction` already in the
session, a further call with no incoming slot re-evaluates the FIRST step —
returning `Question(nextTrain() ++ "..." ++ "Should I text you?")` — and
not `Statement(sendText())` (i.e. not a statement carrying `send_text`'s
`None` result): the first step always returns, so the second step is never
reached. -/
theorem fifth_advance_not_send_text :
    (set_context_and_handle none none
        [("Station", "Park St"), ("Line", "Red"), ("Direction", "Inbound")]).2 =
      AdvanceResult.response RespType.question
        (some "The next Inbound Red train from Park St leaves in 5 minutes....Should I text you?") ∧
    (set_context_and_handle none none
        [("Station", "Park St"), ("Line", "Red"), ("Direction", "Inbound")]).2 ≠
      AdvanceResult.response RespType.statement none := by
  decide

/-- C1 (amended): running the four advance calls of the end-to-end scenario
from an empty session and then a fifth call with no incoming slot returns
`Question(nextTrain() ++ "..." ++ "Should I text you?")` again — the engine
re-runs the first step's handler; the second step (`send_text`) is never
evaluated. -/
theorem scenario_fifth_call_repeats_first_step :
    (set_context_and_handle none none
        (runCalls [(none, none), (some "Station", some "Park St"),
          (some "Line", some "Red"), (some "Direction", some "Inbound")] [])).2 =
      AdvanceResult.response RespType.question
        (some "The next Inbound Red train from Park St leaves in 5 minutes....Should I text you?") := by
  decide

end Mbta
